import Mathlib

/-!
Shallow embedding of the rust-blog-backend repository (axum + sqlx + argon2).

Pure Rust functions become Lean functions; the Postgres-backed data layer
becomes explicit state passing over a `DBState` record; fallible code returns
`Except`.  Machine strings are Lean `String`s; `Uuid` and timestamps are
modelled as `Nat`.  Randomness (the per-call Argon2 salt) is made explicit as
a parameter, and the external argon2 crate's key derivation is a parameter
`Argon2.derive` together with an explicit, invertible PHC-style encoding.
-/

set_option autoImplicit false

/-- Uuid values, modelled abstractly as naturals. -/
abbrev Uuid : Type := Nat

/-- Timestamps (`DateTime<Utc>`), modelled abstractly as naturals. -/
abbrev Timestamp : Type := Nat

/-- Embeds `models::User` (src/src/models.rs lines 5-15): all eight columns,
including the `password` hash column. -/
structure User where
  id : Uuid
  name : String
  username : String
  email : String
  bio : Option String
  password : String
  created_at : Timestamp
  updated_at : Timestamp
  deriving DecidableEq, Repr

/-- Embeds `models::Post` (src/src/models.rs lines 17-26). -/
structure Post where
  author_id : Uuid
  id : Uuid
  views : Int
  title : String
  content : String
  created_at : Timestamp
  updated_at : Timestamp
  deriving DecidableEq, Repr

/-- Embeds `sqlx::Error`, restricted to the variants the embedded code produces:
`RowNotFound` (from `fetch_one` on zero rows and from the explicit
`rows_affected() == 0` check in `delete_post`). -/
inductive SqlxError where
  | RowNotFound
  deriving DecidableEq, Repr

/-- Embeds `Display` for `sqlx::Error::RowNotFound` (used via `e.to_string()` in the
handlers). -/
def SqlxError.toString : SqlxError → String
  | .RowNotFound => "no rows returned by a query that expected to return at least one row"

/-- Modelled from the spec: `src/error.rs` is not in the source tree; the
spec's error taxonomy (§7) names `EmptyPassword`-style validation errors,
`InvalidHashFormat` (`FormatError`), and `WrongCredentials`
(`CredentialMismatch`).  The constructor names are those referenced from
src/src/utils/password.rs and src/src/handler/user.rs. -/
inductive ErrorMessage where
  | EmptyPassword
  | ExceededMaxPasswordLength (max : Nat)
  | HashingError
  | InvalidHashFormat
  | WrongCredentials
  deriving DecidableEq, Repr

/-- Modelled from the spec: the `Display` strings of `ErrorMessage`
(src/error.rs absent); the concrete text is immaterial, only distinctness
matters. -/
def ErrorMessage.toString : ErrorMessage → String
  | .EmptyPassword => "Password cannot be empty"
  | .ExceededMaxPasswordLength max => "Password must not be more than " ++ Nat.repr max ++ " characters"
  | .HashingError => "Error while hashing password"
  | .InvalidHashFormat => "Invalid password hash format"
  | .WrongCredentials => "Email or password is wrong"

/-- Modelled from the spec: `src/error.rs` is not in the source tree; per the
spec's status table (§6), an `HttpError` pairs a message with the HTTP status
the client observes. -/
structure HttpError where
  message : String
  status : Nat
  deriving DecidableEq, Repr

/-- Modelled from the spec: `HttpError::bad_request` — malformed input
(validation) maps to 400. -/
def HttpError.bad_request (m : String) : HttpError := ⟨m, 400⟩

/-- Modelled from the spec: `HttpError::server_error` — unexpected
backing-store failure maps to 500. -/
def HttpError.server_error (m : String) : HttpError := ⟨m, 500⟩

/-- Modelled from the spec: `HttpError::not_found` — absent resource maps
to 404 (used by `get_post_by_id`). -/
def HttpError.not_found (m : String) : HttpError := ⟨m, 404⟩

/-- Modelled from the spec: `HttpError::unauthorized` — missing/invalid token
maps to 401. -/
def HttpError.unauthorized (m : String) : HttpError := ⟨m, 401⟩

/-! ## The password module (src/src/utils/password.rs)

The argon2 crate is external.  Its contract (spec §4.1) is: hashing derives a
key from the plaintext and a fresh salt and emits a PHC-format string
recording both; verification parses the string, re-derives with the recorded
salt and compares.  The key-derivation function is the `derive` field of
`Argon2`; the PHC string is modelled by the explicit, invertible
tally encoding `encodeChars`/`parseChars` below. -/

/-- The external argon2 key-derivation function, abstracted: from a plaintext
and a salt to a derived key. -/
structure Argon2 where
  derive : String → Nat → Nat

/-- PHC-style encoding of a (salt, derived key) pair into characters:
a fixed magic prefix, a tally of the salt, a separator, a tally of the key. -/
def encodeChars (salt key : Nat) : List Char :=
  '$' :: 'A' :: (List.replicate salt 's' ++ '$' :: List.replicate key 'h')

/-- Count the leading run of character `c`, returning the run length and the
remainder. -/
def takeTally (c : Char) : List Char → Nat × List Char
  | [] => (0, [])
  | x :: xs =>
    if x = c then
      let r := takeTally c xs
      (r.1 + 1, r.2)
    else (0, x :: xs)

/-- Embeds `PasswordHash::new`: parse a PHC-style string back into (salt, key);
`none` on any malformed input. -/
def parseChars : List Char → Option (Nat × Nat)
  | '$' :: 'A' :: rest =>
    match takeTally 's' rest with
    | (salt, '$' :: rest2) =>
      match takeTally 'h' rest2 with
      | (key, []) => some (salt, key)
      | _ => none
    | _ => none
  | _ => none

/-- Embeds `MAX_PASSWORD` (src/src/utils/password.rs line 8). -/
def MAX_PASSWORD : Nat := 64

/-- Embeds `utils::password::hash_password` (src/src/utils/password.rs lines 10-32).
The fresh random salt drawn from `OsRng` in the source is the explicit `salt`
argument; the external argon2 hashing is `a.derive`. -/
def hash_password (a : Argon2) (salt : Nat) (password : String) : Except HttpError String :=
  if password.length = 0 then
    .error (HttpError.bad_request ErrorMessage.EmptyPassword.toString)
  else if MAX_PASSWORD < password.length then
    .error (HttpError.bad_request (ErrorMessage.ExceededMaxPasswordLength MAX_PASSWORD).toString)
  else
    .ok (String.mk (encodeChars salt (a.derive password salt)))

/-- Embeds `utils::password::compare_password` (src/src/utils/password.rs lines
34-55).  NOTE the source's parameter order: the FIRST argument is the stored
hash string, the SECOND is the plaintext candidate. -/
def compare_password (a : Argon2) (hashed_password password : String) : Except HttpError Bool :=
  if password.length = 0 then
    .error (HttpError.bad_request ErrorMessage.EmptyPassword.toString)
  else if MAX_PASSWORD < password.length then
    .error (HttpError.bad_request (ErrorMessage.ExceededMaxPasswordLength MAX_PASSWORD).toString)
  else
    match parseChars hashed_password.data with
    | none => .error (HttpError.bad_request ErrorMessage.InvalidHashFormat.toString)
    | some (salt, key) => .ok (decide (a.derive password salt = key))

/-! ### Codec roundtrip lemmas -/

theorem takeTally_replicate_append (c : Char) (n : Nat) (l : List Char)
    (h : ∀ x, l.head? = some x → x ≠ c) :
    takeTally c (List.replicate n c ++ l) = (n, l) := by
  induction n with
  | zero =>
    simp only [List.replicate, List.nil_append]
    cases l with
    | nil => rfl
    | cons x xs =>
      have hx : x ≠ c := h x rfl
      simp [takeTally, hx]
  | succ n ih =>
    simp only [List.replicate, List.cons_append]
    simp [takeTally, ih]

theorem parseChars_encodeChars (salt key : Nat) :
    parseChars (encodeChars salt key) = some (salt, key) := by
  have h1 : takeTally 's' (List.replicate salt 's' ++ '$' :: List.replicate key 'h')
      = (salt, '$' :: List.replicate key 'h') := by
    apply takeTally_replicate_append
    intro x hx hcontra
    simp only [List.head?] at hx
    cases hx
    exact absurd hcontra (by decide)
  have h2 : takeTally 'h' (List.replicate key 'h' ++ ([] : List Char)) = (key, []) := by
    apply takeTally_replicate_append
    intro x hx
    simp [List.head?] at hx
  rw [List.append_nil] at h2
  simp only [encodeChars, parseChars]
  simp [h1, h2]

/-! ## Claims about the password module -/

/-- C6: for every plaintext `p` that hashes successfully, verifying `p`
against the produced hash returns `true`: `compare_password` applied to the
output of `hash_password` and the same plaintext yields `Ok true`. -/
theorem compare_password_of_hash_password_true (a : Argon2) (salt : Nat) (p h : String)
    (hh : hash_password a salt p = .ok h) :
    compare_password a h p = .ok true := by
  unfold hash_password at hh
  by_cases h0 : p.length = 0
  · rw [if_pos h0] at hh
    exact absurd hh (by simp)
  · by_cases h64 : MAX_PASSWORD < p.length
    · rw [if_neg h0, if_pos h64] at hh
      exact absurd hh (by simp)
    · rw [if_neg h0, if_neg h64] at hh
      injection hh with hh
      subst hh
      unfold compare_password
      rw [if_neg h0, if_neg h64]
      have hd : (String.mk (encodeChars salt (a.derive p salt))).data
          = encodeChars salt (a.derive p salt) := rfl
      rw [hd, parseChars_encodeChars]
      simp

/-- Witness for C6 at a concrete derive function, salt and plaintext. -/
theorem compare_password_of_hash_password_true_witness :
    compare_password ⟨fun p s => p.length + s⟩ (String.mk (encodeChars 0 6)) "secret" = .ok true :=
  compare_password_of_hash_password_true ⟨fun p s => p.length + s⟩ 0 "secret"
    (String.mk (encodeChars 0 6)) rfl

/-- C7: `hash_password` rejects an empty plaintext and a plaintext longer
than `MAX_PASSWORD = 64` with a 400 `ValidationError`, and does so before any
cryptographic work: the result does not depend on the key-derivation function
or on the salt. -/
theorem hash_password_rejects_invalid_before_crypto (p : String)
    (h : p.length = 0 ∨ MAX_PASSWORD < p.length) (a a2 : Argon2) (salt salt2 : Nat) :
    (∃ m, hash_password a salt p = .error (HttpError.bad_request m)) ∧
    hash_password a salt p = hash_password a2 salt2 p := by
  rcases h with h | h
  · exact ⟨⟨ErrorMessage.EmptyPassword.toString, by simp [hash_password, h]⟩,
      by simp [hash_password, h]⟩
  · have h0 : ¬ p.length = 0 := by omega
    exact ⟨⟨(ErrorMessage.ExceededMaxPasswordLength MAX_PASSWORD).toString,
      by simp [hash_password, h0, h]⟩, by simp [hash_password, h0, h]⟩

/-- Witness for C7 at the empty plaintext, with two unrelated derive
functions and salts. -/
theorem hash_password_rejects_invalid_before_crypto_witness :
    (∃ m, hash_password ⟨fun _ _ => 0⟩ 3 "" = .error (HttpError.bad_request m)) ∧
    hash_password ⟨fun _ _ => 0⟩ 3 "" = hash_password ⟨fun p s => p.length + s⟩ 7 "" :=
  hash_password_rejects_invalid_before_crypto "" (Or.inl rfl) ⟨fun _ _ => 0⟩
    ⟨fun p s => p.length + s⟩ 3 7

/-- C8: when the stored hash string is malformed (not parseable as a
password-hash structure), `compare_password` returns the typed
`InvalidHashFormat` (`FormatError`) failure — an `Except.error`, not a crash
and not a silent `Ok false`. -/
theorem compare_password_malformed_hash_is_format_error (a : Argon2) (hash p : String)
    (hp0 : ¬ p.length = 0) (hp64 : ¬ MAX_PASSWORD < p.length)
    (hmal : parseChars hash.data = none) :
    compare_password a hash p
      = .error (HttpError.bad_request ErrorMessage.InvalidHashFormat.toString) := by
  unfold compare_password
  rw [if_neg hp0, if_neg hp64, hmal]

/-- Witness for C8 at a concrete malformed stored hash. -/
theorem compare_password_malformed_hash_is_format_error_witness :
    compare_password ⟨fun _ _ => 0⟩ "garbage" "secret"
      = .error (HttpError.bad_request ErrorMessage.InvalidHashFormat.toString) :=
  compare_password_malformed_hash_is_format_error ⟨fun _ _ => 0⟩ "garbage" "secret"
    (by decide) (by decide) rfl

/-! ## The data layer (src/src/db.rs)

The Postgres pool is modelled as an explicit `DBState`; each `DBClient`
method becomes a state transformer returning the post-state and the
`sqlx::Result`.  `NOW()` is the state's clock. -/

/-- The backing store: the `users` and `posts` tables and the SQL `NOW()`
clock. -/
structure DBState where
  users : List User
  posts : List Post
  now : Timestamp
  deriving DecidableEq, Repr

/-- Embeds `UserExt::get_user` (src/src/db.rs lines 87-110): three optional lookup
keys tried in order, each a `SELECT ... LIMIT 1`. -/
def DB.get_user (user_id : Option Uuid) (name email : Option String) (s : DBState) :
    DBState × Except SqlxError (Option User) :=
  match user_id with
  | some uid => (s, .ok (s.users.find? (fun u => u.id == uid)))
  | none =>
    match name with
    | some n => (s, .ok (s.users.find? (fun u => u.name == n)))
    | none =>
      match email with
      | some e => (s, .ok (s.users.find? (fun u => u.email == e)))
      | none => (s, .ok none)

/-- Embeds `UserExt::update_user_name` (src/src/db.rs lines 135-153):
`UPDATE users SET name, updated_at = NOW() WHERE id = $2 RETURNING *`,
then `fetch_one` (`RowNotFound` on zero rows). -/
def DB.update_user_name (user_id : Uuid) (name : String) (s : DBState) :
    DBState × Except SqlxError User :=
  let updated := s.users.map (fun u =>
    if u.id = user_id then { u with name := name, updated_at := s.now } else u)
  ({ s with users := updated },
   match updated.filter (fun u => u.id == user_id) with
   | [] => .error .RowNotFound
   | u :: _ => .ok u)

/-- Embeds `UserExt::update_user_password` (src/src/db.rs lines 155-173):
`UPDATE users SET password, updated_at = NOW() WHERE id = $2 RETURNING *`,
then `fetch_one`. -/
def DB.update_user_password (user_id : Uuid) (new_password : String) (s : DBState) :
    DBState × Except SqlxError User :=
  let updated := s.users.map (fun u =>
    if u.id = user_id then { u with password := new_password, updated_at := s.now } else u)
  ({ s with users := updated },
   match updated.filter (fun u => u.id == user_id) with
   | [] => .error .RowNotFound
   | u :: _ => .ok u)

/-- Insertion into a list sorted by `created_at` descending (model of the SQL
`ORDER BY created_at DESC`). -/
def insertUserByCreated (u : User) : List User → List User
  | [] => [u]
  | v :: vs =>
    if v.created_at ≤ u.created_at then u :: v :: vs else v :: insertUserByCreated u vs

/-- Sort users by `created_at` descending. -/
def sortUsersByCreated : List User → List User
  | [] => []
  | u :: us => insertUserByCreated u (sortUsersByCreated us)

/-- Embeds `UserExt::get_users` (src/src/db.rs lines 350-376):
`SELECT * FROM users ORDER BY created_at DESC LIMIT $1 OFFSET $2` with
`offset = (page - 1) * limit`. -/
def DB.get_users (page limit : Nat) (s : DBState) :
    DBState × Except SqlxError (List User) :=
  let offset := (page - 1) * limit
  (s, .ok (((sortUsersByCreated s.users).drop offset).take limit))

/-- Embeds `UserExt::get_posts` (src/src/db.rs lines 279-292): the computed
`offset` is never used — the query is a bare `SELECT ... FROM posts` with no
`LIMIT`, `OFFSET` or `ORDER BY`. -/
def DB.get_posts (page : Nat) (limit : Nat) (s : DBState) :
    DBState × Except SqlxError (List Post) :=
  let _offset := (page - 1) * limit
  (s, .ok s.posts)

/-- Embeds `UserExt::update_post` (src/src/db.rs lines 294-328): a single
conditional `UPDATE posts SET title, content, updated_at = NOW() WHERE id =
$3 AND author_id = $4 RETURNING *`, then `fetch_one` (`RowNotFound` on zero
rows). -/
def DB.update_post (post_id author_id : Uuid) (title content : String) (s : DBState) :
    DBState × Except SqlxError Post :=
  let updated := s.posts.map (fun p =>
    if p.id = post_id ∧ p.author_id = author_id then
      { p with title := title, content := content, updated_at := s.now }
    else p)
  ({ s with posts := updated },
   match updated.filter (fun p => p.id == post_id && p.author_id == author_id) with
   | [] => .error .RowNotFound
   | p :: _ => .ok p)

/-- Embeds `UserExt::delete_post` (src/src/db.rs lines 330-348): a single
conditional `DELETE FROM posts WHERE id = $1 AND author_id = $2`, then an
explicit `rows_affected() == 0` check producing `RowNotFound`. -/
def DB.delete_post (post_id author_id : Uuid) (s : DBState) :
    DBState × Except SqlxError Unit :=
  let remaining := s.posts.filter (fun p => !(p.id == post_id && p.author_id == author_id))
  ({ s with posts := remaining },
   if s.posts.length - remaining.length = 0 then .error .RowNotFound
   else .ok ())

/-! ## DTOs (src/src/dtos.rs) and the identity context -/

/-- Embeds `dtos::PostDto` with its validator: both fields `length(min = 1)`. -/
structure PostDto where
  title : String
  content : String
  deriving DecidableEq, Repr

/-- Embeds `PostDto`'s derived `validate()`. -/
def PostDto.validate (b : PostDto) : Bool :=
  decide (1 ≤ b.title.length) && decide (1 ≤ b.content.length)

/-- Embeds `dtos::RequestQueryDto` (src/src/dtos.rs lines 32-38): optional `page`
(`range(min = 1)`) and `limit` (`range(min = 1, max = 50)`). -/
structure RequestQueryDto where
  page : Option Nat
  limit : Option Nat
  deriving DecidableEq, Repr

/-- Embeds `RequestQueryDto`'s derived `validate()`. -/
def RequestQueryDto.validate (q : RequestQueryDto) : Bool :=
  (match q.page with
   | none => true
   | some p => decide (1 ≤ p)) &&
  (match q.limit with
   | none => true
   | some l => decide (1 ≤ l) && decide (l ≤ 50))

/-- Embeds `dtos::NameUpdateDto`: `name` with `length(min = 1)`. -/
structure NameUpdateDto where
  name : String
  deriving DecidableEq, Repr

/-- Embeds `NameUpdateDto`'s derived `validate()`. -/
def NameUpdateDto.validate (b : NameUpdateDto) : Bool :=
  decide (1 ≤ b.name.length)

/-- Embeds `dtos::UserPasswordUpdateDto` (src/src/dtos.rs lines 109-132): three
fields with `length(min = 1)` and `length(min = 6)`, and
`new_password_confirm` must match `new_password`. -/
structure UserPasswordUpdateDto where
  new_password : String
  new_password_confirm : String
  old_password : String
  deriving DecidableEq, Repr

/-- Embeds `UserPasswordUpdateDto`'s derived `validate()`. -/
def UserPasswordUpdateDto.validate (b : UserPasswordUpdateDto) : Bool :=
  decide (1 ≤ b.new_password.length) && decide (6 ≤ b.new_password.length) &&
  decide (1 ≤ b.new_password_confirm.length) && decide (6 ≤ b.new_password_confirm.length) &&
  (b.new_password_confirm == b.new_password) &&
  decide (1 ≤ b.old_password.length) && decide (6 ≤ b.old_password.length)

/-- Embeds `dtos::FilterUserDto` (src/src/dtos.rs lines 40-49): every `User` column
except `password`. -/
structure FilterUserDto where
  id : Uuid
  name : String
  username : String
  email : String
  bio : Option String
  created_at : Timestamp
  updated_at : Timestamp
  deriving DecidableEq, Repr

/-- Embeds `FilterUserDto::filter_user` (src/src/dtos.rs lines 51-63). -/
def FilterUserDto.filter_user (user : User) : FilterUserDto :=
  { id := user.id
    name := user.name
    username := user.username
    email := user.email
    bio := user.bio
    created_at := user.created_at
    updated_at := user.updated_at }

/-- Embeds `dtos::UserData`. -/
structure UserData where
  user : FilterUserDto
  deriving DecidableEq, Repr

/-- Embeds `dtos::UserResponseDto`. -/
structure UserResponseDto where
  status : String
  data : UserData
  deriving DecidableEq, Repr

/-- Embeds `dtos::Response`. -/
structure ResponseDto where
  status : String
  message : String
  deriving DecidableEq, Repr

/-- Embeds `dtos::PostListResponseDto` (src/src/dtos.rs lines 134-139). -/
structure PostListResponseDto where
  status : String
  results : Int
  posts : List Post
  deriving DecidableEq, Repr

/-- Modelled from the spec: `src/middleware.rs` is not in the source tree;
per §4.3 the Identity Resolver publishes an authenticated identity context
carrying the `User` row loaded for the verified token's subject id.  Handlers
read it as `Extension(user): Extension<JWTAuthMiddleware>`. -/
structure JWTAuthMiddleware where
  user : User
  deriving DecidableEq, Repr

/-! ## Handlers

Each axum handler becomes a function of the identity context (when the route
is protected), the request input and the database state, returning the
post-state and the `Result` body.  Error mapping follows the source's
`map_err` calls exactly. -/

/-- Embeds `handler::post::update_post` (src/src/handler/post.rs lines 97-116):
validation maps to `bad_request`; EVERY database error — including
`RowNotFound` from the conditional update — maps to `server_error`. -/
def Handler.update_post (ctx : JWTAuthMiddleware) (post_id : Uuid) (body : PostDto)
    (s : DBState) : DBState × Except HttpError Post :=
  if body.validate = false then
    (s, .error (HttpError.bad_request "Validation error"))
  else
    let user_id := ctx.user.id
    let r := DB.update_post post_id user_id body.title body.content s
    match r.2 with
    | .error e => (r.1, .error (HttpError.server_error e.toString))
    | .ok post => (r.1, .ok post)

/-- Embeds `handler::post::delete_post` (src/src/handler/post.rs lines 118-139):
EVERY database error — including `RowNotFound` from the conditional delete —
maps to `server_error`. -/
def Handler.delete_post (ctx : JWTAuthMiddleware) (post_id : Uuid)
    (s : DBState) : DBState × Except HttpError ResponseDto :=
  let user_id := ctx.user.id
  let r := DB.delete_post post_id user_id s
  match r.2 with
  | .error e => (r.1, .error (HttpError.server_error e.toString))
  | .ok _ => (r.1, .ok { status := "success", message := "Post deleted successfully!" })

/-- Embeds `handler::post::all_posts` (src/src/handler/post.rs lines 73-95):
validates the query, defaults `page = 1`, `limit = 10`, calls
`get_posts` and wraps the rows with `results = posts.len()`. -/
def Handler.all_posts (q : RequestQueryDto) (s : DBState) :
    DBState × Except HttpError PostListResponseDto :=
  if q.validate = false then
    (s, .error (HttpError.bad_request "validation error"))
  else
    let page := q.page.getD 1
    let limit := q.limit.getD 10
    let r := DB.get_posts page limit s
    match r.2 with
    | .error e => (r.1, .error (HttpError.server_error e.toString))
    | .ok posts =>
      (r.1, .ok { status := "success", results := Int.ofNat posts.length, posts := posts })

/-- Embeds `handler::user::get_users` (src/src/handler/user.rs lines 47-65):
validates the query, defaults `page = 1`, `limit = 10`, and returns the raw
`Vec<User>` rows as `Json(users)` — NOT filtered through `FilterUserDto`. -/
def Handler.get_users (q : RequestQueryDto) (s : DBState) :
    DBState × Except HttpError (List User) :=
  if q.validate = false then
    (s, .error (HttpError.bad_request "validation error"))
  else
    let page := q.page.getD 1
    let limit := q.limit.getD 10
    let r := DB.get_users page limit s
    match r.2 with
    | .error e => (r.1, .error (HttpError.server_error e.toString))
    | .ok users => (r.1, .ok users)

/-- Embeds `handler::user::update_user_name` (src/src/handler/user.rs lines 67-95):
the id passed to the update query is
`Uuid::parse_str(&user.id.to_string()).unwrap()` — the identity context's own
id; the body carries only the new name. -/
def Handler.update_user_name (ctx : JWTAuthMiddleware) (body : NameUpdateDto)
    (s : DBState) : DBState × Except HttpError UserResponseDto :=
  if body.validate = false then
    (s, .error (HttpError.bad_request "validation error"))
  else
    let user_id := ctx.user.id
    let r := DB.update_user_name user_id body.name s
    match r.2 with
    | .error e => (r.1, .error (HttpError.server_error e.toString))
    | .ok u =>
      (r.1, .ok { status := "success", data := { user := FilterUserDto.filter_user u } })

/-- Embeds `handler::user::update_user_password` (src/src/handler/user.rs lines
97-139).  Faithful to the source, including: the freshly fetched `result`
row is never used; the comparison is
`compare_password(&body.old_password, &user.password)` — i.e. the plaintext
old password is passed in the HASH position and the stored hash in the
PLAINTEXT position of `compare_password(hashed_password, password)`. -/
def Handler.update_user_password (a : Argon2) (salt : Nat) (ctx : JWTAuthMiddleware)
    (body : UserPasswordUpdateDto) (s : DBState) : DBState × Except HttpError ResponseDto :=
  if body.validate = false then
    (s, .error (HttpError.bad_request "validation error"))
  else
    let user := ctx.user
    let user_id := user.id
    let r1 := DB.get_user (some user_id) none none s
    match r1.2 with
    | .error e => (r1.1, .error (HttpError.server_error e.toString))
    | .ok _result =>
      match compare_password a body.old_password user.password with
      | .error e => (r1.1, .error (HttpError.bad_request e.message))
      | .ok password_match =>
        if password_match = false then
          (r1.1, .error (HttpError.bad_request ErrorMessage.WrongCredentials.toString))
        else
          match hash_password a salt body.new_password with
          | .error e => (r1.1, .error (HttpError.bad_request e.message))
          | .ok hp =>
            let r2 := DB.update_user_password user_id hp r1.1
            match r2.2 with
            | .error e => (r2.1, .error (HttpError.server_error e.toString))
            | .ok _ =>
              (r2.1, .ok { status := "success", message := "Password updated Successfully" })

/-! ## Serde serialization model

`#[derive(Serialize)]` on a struct emits every field under its own name, in
declaration order.  A JSON value is modelled just deeply enough to state
which keys appear in a serialized object. -/

/-- A JSON scalar as produced by the derived serializers. -/
inductive JValue where
  | str : String → JValue
  | num : Nat → JValue
  | intg : Int → JValue
  | null : JValue
  deriving DecidableEq, Repr

/-- The derived `Serialize` of `models::User`: ALL eight fields, `password`
included. -/
def serializeUser (u : User) : List (String × JValue) :=
  [("id", JValue.num u.id),
   ("name", JValue.str u.name),
   ("username", JValue.str u.username),
   ("email", JValue.str u.email),
   ("bio", match u.bio with | none => JValue.null | some b => JValue.str b),
   ("password", JValue.str u.password),
   ("created_at", JValue.num u.created_at),
   ("updated_at", JValue.num u.updated_at)]

/-- The derived `Serialize` of `dtos::FilterUserDto`: the seven non-password
fields. -/
def serializeFilterUser (u : FilterUserDto) : List (String × JValue) :=
  [("id", JValue.num u.id),
   ("name", JValue.str u.name),
   ("username", JValue.str u.username),
   ("email", JValue.str u.email),
   ("bio", match u.bio with | none => JValue.null | some b => JValue.str b),
   ("created_at", JValue.num u.created_at),
   ("updated_at", JValue.num u.updated_at)]

/-! ## Helper lemmas on the mutation semantics -/

theorem map_id_of_fixed {α : Type} (f : α → α) (l : List α)
    (h : ∀ a, a ∈ l → f a = a) : l.map f = l := by
  induction l with
  | nil => rfl
  | cons x xs ih =>
    rw [List.map_cons, h x (List.mem_cons_self x xs),
      ih (fun a ha => h a (List.mem_cons_of_mem x ha))]

/-- A conditional `UPDATE posts` whose predicate matches no row leaves the
store untouched and reports `RowNotFound`. -/
theorem DB.update_post_no_match (pid uid : Uuid) (t c : String) (s : DBState)
    (h : ∀ p, p ∈ s.posts → ¬(p.id = pid ∧ p.author_id = uid)) :
    DB.update_post pid uid t c s = (s, .error .RowNotFound) := by
  have hmap : s.posts.map (fun p =>
      if p.id = pid ∧ p.author_id = uid then
        { p with title := t, content := c, updated_at := s.now }
      else p) = s.posts :=
    map_id_of_fixed _ _ (fun p hp => if_neg (h p hp))
  have hfil : s.posts.filter (fun p => p.id == pid && p.author_id == uid) = [] := by
    rw [List.filter_eq_nil_iff]
    intro p hp
    have := h p hp
    simp only [Bool.and_eq_true, beq_iff_eq]
    exact fun hc => this ⟨hc.1, hc.2⟩
  simp only [DB.update_post]
  rw [hmap, hfil]

/-- A conditional `DELETE FROM posts` whose predicate matches no row leaves
the store untouched and reports `RowNotFound`. -/
theorem DB.delete_post_no_match (pid uid : Uuid) (s : DBState)
    (h : ∀ p, p ∈ s.posts → ¬(p.id = pid ∧ p.author_id = uid)) :
    DB.delete_post pid uid s = (s, .error .RowNotFound) := by
  have hfil : s.posts.filter (fun p => !(p.id == pid && p.author_id == uid)) = s.posts := by
    rw [List.filter_eq_self]
    intro p hp
    have := h p hp
    by_cases h1 : p.id = pid
    · have h2 : p.author_id ≠ uid := fun ha => this ⟨h1, ha⟩
      simp [h1, h2]
    · simp [h1]
  simp only [DB.delete_post]
  rw [hfil]
  simp

/-! ## Claims about ownership-gated mutation (data layer) -/

/-- C3: the existence-and-ownership check and the mutation are one
conditional operation whose predicate tests both the post id and the author
id: a row that appears changed after `update_post` satisfied both tests, an
unmatched row survives unchanged, and `delete_post` removes a row only when
both tests hold. -/
theorem post_mutation_ownership_conditional (s : DBState) (pid uid : Uuid) (t c : String) :
    (∀ p, p ∈ (DB.update_post pid uid t c s).1.posts → p ∉ s.posts →
      p.id = pid ∧ p.author_id = uid) ∧
    (∀ p, p ∈ s.posts → ¬(p.id = pid ∧ p.author_id = uid) →
      p ∈ (DB.update_post pid uid t c s).1.posts) ∧
    (∀ p, p ∈ s.posts → p ∉ (DB.delete_post pid uid s).1.posts →
      p.id = pid ∧ p.author_id = uid) := by
  refine ⟨?_, ?_, ?_⟩
  · intro p hp hnotin
    have hp' : p ∈ s.posts.map (fun q =>
        if q.id = pid ∧ q.author_id = uid then
          { q with title := t, content := c, updated_at := s.now }
        else q) := hp
    rcases List.mem_map.mp hp' with ⟨q, hq, hfq⟩
    by_cases hm : q.id = pid ∧ q.author_id = uid
    · rw [if_pos hm] at hfq
      subst hfq
      exact ⟨hm.1, hm.2⟩
    · rw [if_neg hm] at hfq
      subst hfq
      exact absurd hq hnotin
  · intro p hp hnot
    show p ∈ s.posts.map (fun q =>
      if q.id = pid ∧ q.author_id = uid then
        { q with title := t, content := c, updated_at := s.now }
      else q)
    exact List.mem_map.mpr ⟨p, hp, if_neg hnot⟩
  · intro p hp hnotin
    have hnotin' : p ∉ s.posts.filter (fun q => !(q.id == pid && q.author_id == uid)) := hnotin
    by_contra hc
    apply hnotin'
    apply List.mem_filter.mpr
    refine ⟨hp, ?_⟩
    simp only [Bool.not_eq_true', Bool.and_eq_false_iff, beq_eq_false_iff_ne]
    by_cases h1 : p.id = pid
    · exact Or.inr (fun h2 => hc ⟨h1, h2⟩)
    · exact Or.inl h1

/-! ### Concrete fixtures -/

/-- A post owned by user 2 with id 10. -/
def exPostB : Post :=
  { author_id := 2, id := 10, views := 0, title := "t", content := "c"
    created_at := 0, updated_at := 0 }

/-- User 1. -/
def exUserA : User :=
  { id := 1, name := "alice", username := "alice", email := "alice@example.com"
    bio := none, password := "$A$hh", created_at := 0, updated_at := 0 }

/-- A store holding user 1 and a post owned by user 2. -/
def exStateB : DBState := { users := [exUserA], posts := [exPostB], now := 7 }

/-- Witness for C3: the post owned by user 2 survives user 1's conditional
update untouched. -/
theorem post_mutation_ownership_conditional_witness :
    exPostB ∈ (DB.update_post 10 1 "x" "y" exStateB).1.posts :=
  (post_mutation_ownership_conditional exStateB 10 1 "x" "y").2.1 exPostB
    (List.mem_singleton.mpr rfl) (by decide)

/-- C4: when user B ≠ A attempts to update or delete a post R owned by A,
both operations report `RowNotFound` (the `NotFoundOrNotOwned` outcome) and
return the store completely unchanged — R's fields, timestamps and existence
included. -/
theorem cross_user_post_mutation_fails_unchanged (s : DBState) (A B : Uuid) (R : Post)
    (t c : String) (hmem : R ∈ s.posts) (hown : R.author_id = A) (hne : B ≠ A)
    (huniq : ∀ p, p ∈ s.posts → p.id = R.id → p = R) :
    DB.update_post R.id B t c s = (s, .error .RowNotFound) ∧
    DB.delete_post R.id B s = (s, .error .RowNotFound) := by
  have hno : ∀ p, p ∈ s.posts → ¬(p.id = R.id ∧ p.author_id = B) := by
    intro p hp ⟨h1, h2⟩
    have hpR : p = R := huniq p hp h1
    subst hpR
    rw [hown] at h2
    exact hne h2.symm
  exact ⟨DB.update_post_no_match R.id B t c s hno, DB.delete_post_no_match R.id B s hno⟩

/-- Witness for C4: user 1 cannot update or delete the post owned by
user 2. -/
theorem cross_user_post_mutation_fails_unchanged_witness :
    DB.update_post 10 1 "x" "y" exStateB = (exStateB, .error .RowNotFound) ∧
    DB.delete_post 10 1 exStateB = (exStateB, .error .RowNotFound) :=
  cross_user_post_mutation_fails_unchanged exStateB 2 1 exPostB "x" "y"
    (List.mem_singleton.mpr rfl) rfl (by decide)
    (fun p hp _ => List.mem_singleton.mp hp)

/-! ## Claims about the post handlers -/

/-- C1 (amended): for a mutation of a post that is absent or owned by another
user, the data layer collapses both cases to the single `RowNotFound`
(`NotFoundOrNotOwned`) outcome — but the handlers map every database error to
`server_error`, so the client observes status 500, not 404. -/
theorem mutation_not_owned_single_outcome_maps_500 (ctx : JWTAuthMiddleware) (pid : Uuid)
    (body : PostDto) (s : DBState) (hval : body.validate = true)
    (habs : ∀ p, p ∈ s.posts → ¬(p.id = pid ∧ p.author_id = ctx.user.id)) :
    (Handler.update_post ctx pid body s).2
      = .error (HttpError.server_error SqlxError.RowNotFound.toString) ∧
    (Handler.delete_post ctx pid s).2
      = .error (HttpError.server_error SqlxError.RowNotFound.toString) ∧
    (HttpError.server_error SqlxError.RowNotFound.toString).status = 500 := by
  have hu := DB.update_post_no_match pid ctx.user.id body.title body.content s habs
  have hd := DB.delete_post_no_match pid ctx.user.id s habs
  refine ⟨?_, ?_, rfl⟩
  · simp only [Handler.update_post]
    rw [if_neg (by simp [hval]), hu]
  · simp only [Handler.delete_post]
    rw [hd]

/-- Witness for C1 (amended), at an absent post id. -/
theorem mutation_not_owned_single_outcome_maps_500_witness :
    (Handler.update_post ⟨exUserA⟩ 99 { title := "x", content := "y" } exStateB).2
      = .error (HttpError.server_error SqlxError.RowNotFound.toString) ∧
    (Handler.delete_post ⟨exUserA⟩ 99 exStateB).2
      = .error (HttpError.server_error SqlxError.RowNotFound.toString) ∧
    (HttpError.server_error SqlxError.RowNotFound.toString).status = 500 :=
  mutation_not_owned_single_outcome_maps_500 ⟨exUserA⟩ 99 { title := "x", content := "y" }
    exStateB rfl (by decide)

/-- Counterexample for C1 as stated: user 1 mutating the post owned by
user 2 observes HTTP status 500 from both handlers, not the claimed 404. -/
theorem update_delete_not_owned_observed_status_500 :
    ((Handler.update_post ⟨exUserA⟩ 10 { title := "x", content := "y" } exStateB).2
      = .error (HttpError.server_error SqlxError.RowNotFound.toString)) ∧
    ((Handler.delete_post ⟨exUserA⟩ 10 exStateB).2
      = .error (HttpError.server_error SqlxError.RowNotFound.toString)) ∧
    (((HttpError.server_error SqlxError.RowNotFound.toString).status == 404) = false) ∧
    (((HttpError.server_error SqlxError.RowNotFound.toString).status == 500) = true) :=
  ⟨rfl, rfl, rfl, rfl⟩

/-- C10: for every validated query (page ≥ 1, limit between 1 and 50, both
optional), `all_posts` returns the complete posts table with
`results = posts.len()` and leaves the store untouched — the page and limit
parameters are ignored by `get_posts`. -/
theorem all_posts_ignores_page_and_limit (q : RequestQueryDto) (s : DBState)
    (hval : q.validate = true) :
    Handler.all_posts q s
      = (s, .ok { status := "success", results := Int.ofNat s.posts.length,
                  posts := s.posts }) := by
  simp only [Handler.all_posts]
  rw [if_neg (by simp [hval])]
  rfl

/-- A post owned by user 1 with id 11. -/
def exPost1 : Post :=
  { author_id := 1, id := 11, views := 0, title := "p1", content := "c1"
    created_at := 0, updated_at := 0 }

/-- A post owned by user 2 with id 12. -/
def exPost2 : Post :=
  { author_id := 2, id := 12, views := 0, title := "p2", content := "c2"
    created_at := 1, updated_at := 1 }

/-- A store holding two posts. -/
def exState2 : DBState := { users := [], posts := [exPost1, exPost2], now := 3 }

/-- Witness for C10: with `page = 2, limit = 1` the endpoint still returns
both stored posts and reports `results = 2`. -/
theorem all_posts_ignores_page_and_limit_witness :
    Handler.all_posts { page := some 2, limit := some 1 } exState2
      = (exState2, .ok { status := "success", results := Int.ofNat exState2.posts.length,
                         posts := exState2.posts }) :=
  all_posts_ignores_page_and_limit { page := some 2, limit := some 1 } exState2 rfl

/-! ## Claims about the user handlers -/

/-- The rows of a user table belonging to users other than `uid`. -/
def usersOtherThan (uid : Uuid) : List User → List User
  | [] => []
  | u :: us => if u.id = uid then usersOtherThan uid us else u :: usersOtherThan uid us

theorem usersOtherThan_map_update (uid : Uuid) (f : User → User)
    (hf : ∀ u, (f u).id = u.id) (l : List User) :
    usersOtherThan uid (l.map (fun u => if u.id = uid then f u else u))
      = usersOtherThan uid l := by
  induction l with
  | nil => rfl
  | cons x xs ih =>
    by_cases hx : x.id = uid
    · simp only [List.map_cons, if_pos hx, usersOtherThan]
      rw [if_pos (by rw [hf x]; exact hx)]
      exact ih
    · simp only [List.map_cons, if_neg hx, usersOtherThan]
      rw [ih]

/-- C9: both `update_user_name` and `update_user_password` pass the verified
identity context's own user id to the update query — the request body carries
no id at all — so in every outcome the rows of all other users are exactly as
before. -/
theorem user_updates_touch_only_requester_row (a : Argon2) (salt : Nat)
    (ctx : JWTAuthMiddleware) (nb : NameUpdateDto) (pb : UserPasswordUpdateDto)
    (s : DBState) :
    usersOtherThan ctx.user.id ((Handler.update_user_name ctx nb s).1).users
      = usersOtherThan ctx.user.id s.users ∧
    usersOtherThan ctx.user.id ((Handler.update_user_password a salt ctx pb s).1).users
      = usersOtherThan ctx.user.id s.users := by
  constructor
  · simp only [Handler.update_user_name]
    split
    · rfl
    · split
      all_goals
        show usersOtherThan ctx.user.id
            (s.users.map (fun u =>
              if u.id = ctx.user.id then { u with name := nb.name, updated_at := s.now }
              else u))
          = usersOtherThan ctx.user.id s.users
      all_goals
        exact usersOtherThan_map_update ctx.user.id
          (fun u => { u with name := nb.name, updated_at := s.now }) (fun u => rfl) s.users
  · simp only [Handler.update_user_password]
    split
    · rfl
    · split
      · rfl
      · split
        · rfl
        · split
          · rfl
          · split
            · rfl
            · rename_i hp hhp
              split
              all_goals
                show usersOtherThan ctx.user.id
                    (s.users.map (fun u =>
                      if u.id = ctx.user.id then
                        { u with password := hp, updated_at := s.now }
                      else u))
                  = usersOtherThan ctx.user.id s.users
              all_goals
                exact usersOtherThan_map_update ctx.user.id
                  (fun u => { u with password := hp, updated_at := s.now }) (fun u => rfl) s.users

/-- A store holding only user 1. -/
def exStateA : DBState := { users := [exUserA], posts := [], now := 7 }

/-- C2 is violated by `get_users`: the handler returns the raw `User` rows,
whose derived serialization carries the `password` key with the stored hash
as its value — while the `FilterUserDto` path (which `get_users` bypasses)
serializes no `password` key at all. -/
theorem get_users_response_serializes_password_hash :
    ((Handler.get_users { page := some 1, limit := some 10 } exStateA).2
      = .ok [exUserA]) ∧
    (List.lookup "password" (serializeUser exUserA) = some (JValue.str exUserA.password)) ∧
    (((serializeFilterUser (FilterUserDto.filter_user exUserA)).all
        (fun kv => !(kv.1 == "password"))) = true) :=
  ⟨rfl, rfl, rfl⟩

/-- The concrete key-derivation function used in the password-change
scenario. -/
def exArgon : Argon2 := ⟨fun p s => p.length + s⟩

/-- The stored hash of the plaintext `"secret99"` under `exArgon` with
salt 0. -/
def exStoredHash : String := String.mk (encodeChars 0 8)

/-- A user whose stored password hash is `exStoredHash`. -/
def exUserP : User :=
  { id := 1, name := "alice", username := "alice", email := "alice@example.com"
    bio := none, password := exStoredHash, created_at := 0, updated_at := 0 }

/-- A password-change request carrying the CORRECT old password. -/
def exPwBody : UserPasswordUpdateDto :=
  { new_password := "brandnew9", new_password_confirm := "brandnew9"
    old_password := "secret99" }

/-- A store holding only `exUserP`. -/
def exStateP : DBState := { users := [exUserP], posts := [], now := 7 }

/-- C5 is violated by the handler: the stored hash is genuinely
`hash_password("secret99")` and verifying in the contract's order succeeds,
yet `update_user_password` fails with the `InvalidHashFormat` validation
error and leaves the store untouched, because the source passes
`(&body.old_password, &user.password)` to
`compare_password(hashed_password, password)` — the plaintext old password in
the hash position and the stored hash in the plaintext position. -/
theorem update_user_password_swapped_arguments_bug :
    (hash_password exArgon 0 "secret99" = .ok exStoredHash) ∧
    (compare_password exArgon exStoredHash "secret99" = .ok true) ∧
    ((Handler.update_user_password exArgon 5 ⟨exUserP⟩ exPwBody exStateP).2
      = .error (HttpError.bad_request ErrorMessage.InvalidHashFormat.toString)) ∧
    ((Handler.update_user_password exArgon 5 ⟨exUserP⟩ exPwBody exStateP).1 = exStateP) :=
  ⟨rfl, rfl, rfl, rfl⟩
